import Mathlib

/-!
Shallow embedding of the DCUP ledger core
(`src/blockchain/MCoinsBlockChain.py`, with the near-duplicate
`src/MCoins.py` sharing the same `add_block` block-building code).

Transactions in the source are duck-typed Python dicts, so the embedding
models Python values (`PyVal`), dict lookups (with `KeyError` on `tx[k]`
for a missing key, and `None` defaults for `tx.get(k)`), Python truthiness
and hashability, and the `TypeError`s of arithmetic on, or dict access
with, ill-typed values.  Exceptions escaping `verify_transaction` /
`add_block` are modelled with `Except PyErr`.

External collaborators (the `ecdsa` library behind
`address_from_pubkey_hex` and signature verification, and the
SHA-256-of-canonical-JSON block digest) are parameters of the model
(`Crypto`, `digest`), exactly as the spec treats them: the ledger consumes
address derivation, signature verification and a deterministic digest of
the block's non-hash fields.
-/

namespace DCUP

/-- The Python values that can appear in a transaction dict or a stored
record: strings, ints, dicts (metadata), and `None`.  Dict payloads are
restricted to flat string-to-string maps: the ledger never inspects a
dict value (metadata is stored opaquely), so flat dicts suffice to
represent the `{}` default and wrong-typed fields.  Dict equality is
modelled as ordered-field equality; the source only ever compares dict
values against strings or `None`, where the two notions agree. -/
inductive PyVal where
  | str (s : String)
  | int (n : Int)
  | dict (kvs : List (String × String))
  | pyNone
deriving DecidableEq, Repr

/-- `isinstance(v, str)`. -/
def PyVal.isStr : PyVal → Bool
  | .str _ => true
  | _ => false

/-- Python truthiness (`if not v`): empty string, `0`, empty dict and
`None` are falsy. -/
def PyVal.truthy : PyVal → Bool
  | .str s => s != ""
  | .int n => n != 0
  | .dict kvs => !kvs.isEmpty
  | .pyNone => false

/-- Whether a value may be used as a dict key (`dict` is unhashable and
raises `TypeError`). -/
def PyVal.hashable : PyVal → Bool
  | .dict _ => false
  | _ => true

/-- The exceptions the source can raise out of `verify_transaction` and
`add_block`: `KeyError` from `tx[k]`, `TypeError` from ill-typed
arithmetic or unhashable dict keys, and the `ValueError(msg)` raised by
`add_block` on a failed verification. -/
inductive PyErr where
  | keyError (k : String)
  | keyErrorVal (k : PyVal)
  | typeError
  | valueError (msg : String)
deriving DecidableEq, Repr

/-- A transaction: a Python dict with string keys (the source only ever
looks transactions up by string keys). -/
abbrev Tx := List (String × PyVal)

/-- First-match association lookup: the raw dict lookup. -/
def dictLookup : Tx → String → Option PyVal
  | [], _ => Option.none
  | (k', v) :: rest, k => if k' = k then some v else dictLookup rest k

/-- `tx.get(k, d)`: the stored value, or `d` when the key is missing. -/
def dictGet (tx : Tx) (k : String) (d : PyVal) : PyVal :=
  (dictLookup tx k).getD d

/-- `tx[k]`: raises `KeyError` when the key is missing. -/
def dictItem (tx : Tx) (k : String) : Except PyErr PyVal :=
  match dictLookup tx k with
  | some v => Except.ok v
  | Option.none => Except.error (PyErr.keyError k)

/-- A dict keyed by arbitrary (hashable) Python values, used for
`self.balances` and `self.collectibles`. -/
abbrev PyMap (β : Type) := List (PyVal × β)

/-- First-match lookup in a `PyMap`. -/
def pymapLookup {β : Type} : PyMap β → PyVal → Option β
  | [], _ => Option.none
  | (k', v) :: rest, k => if k' = k then some v else pymapLookup rest k

/-- `m[k] = v`: replace the binding of `k` (first match), or append a new
one. -/
def pymapSet {β : Type} : PyMap β → PyVal → β → PyMap β
  | [], k, v => [(k, v)]
  | (k', v') :: rest, k, v =>
      if k' = k then (k, v) :: rest else (k', v') :: pymapSet rest k v

/-- `self.balances : Dict[str, int]` (keys are `PyVal`s because a GENESIS
token transaction's unvalidated `to` field is used as a key as-is). -/
abbrev Balances := PyMap Int

/-- `self.balances.get(k, 0)`. -/
def balGet (m : Balances) (k : PyVal) : Int :=
  (pymapLookup m k).getD 0

/-- A stored collectible record, as built by `add_block`
(`{"id": cid, "name": tx.get("name"), "owner": tx["to"],
"metadata": tx.get("metadata", {}), "timestamp": time.time()}`).
Timestamps are abstracted to `Nat` ticks. -/
structure Collectible where
  id : PyVal
  name : PyVal
  owner : PyVal
  metadata : PyVal
  timestamp : Nat
deriving DecidableEq, Repr

abbrev Collectibles := PyMap Collectible

/-- A block as built by `add_block` (lines 155-162): `index`,
`timestamp`, `transactions`, `prev_hash`, plus the `hash` field added
after serialization. -/
structure Block where
  index : Nat
  timestamp : Nat
  transactions : List Tx
  prev_hash : String
  hash : String
deriving DecidableEq, Repr

/-- The fields of a block that enter the hash: everything except the
stored `hash` itself (the source serializes the block dict before the
`hash` key is added). -/
structure BlockContent where
  index : Nat
  timestamp : Nat
  transactions : List Tx
  prev_hash : String
deriving DecidableEq, Repr

/-- The hashed content of a stored block: its fields minus `hash`. -/
def Block.content (b : Block) : BlockContent :=
  ⟨b.index, b.timestamp, b.transactions, b.prev_hash⟩

/-- Attach a digest to block content, yielding the stored block. -/
def BlockContent.withHash (c : BlockContent) (h : String) : Block :=
  ⟨c.index, c.timestamp, c.transactions, c.prev_hash, h⟩

/-- The `Blockchain` object's mutable state: `self.chain`,
`self.balances`, `self.collectibles`. -/
structure LedgerState where
  chain : List Block
  balances : Balances
  collectibles : Collectibles
deriving DecidableEq, Repr

/-- The state a fresh install starts from (empty chain file, empty
balances and collectibles files). -/
def empty_state : LedgerState := ⟨[], [], []⟩

/-- Outcome of `VerifyingKey(...).verify(...)` inside the `try` block of
`verify_transaction`: success, `BadSignatureError`, or any other
exception (e.g. a malformed key in `VerifyingKey.from_string`), whose
message the source interpolates into its reason string. -/
inductive SigOutcome where
  | valid
  | badSignature
  | err (msg : String)
deriving DecidableEq, Repr

/-- The external crypto collaborator: `address_from_pubkey_hex`
(SHA-256 of the decoded pubkey bytes) and ECDSA signature verification
over the message `f"{from}{to}{amount}"`. -/
structure Crypto where
  deriveAddress : String → String
  verifySig : (pubkeyHex : String) → (signatureHex : String) → (message : String) → SigOutcome

def SUPPLY_TOTAL : Int := 100000000

/-- A hexadecimal digit, as accepted by `bytes.fromhex`. -/
def isHexChar (c : Char) : Bool :=
  c.isDigit || ('a' ≤ c && c ≤ 'f') || ('A' ≤ c && c ≤ 'F')

/-- `is_hex(s)`: whether `bytes.fromhex(s)` succeeds — an even number of
hex digits.  (Python additionally allows ASCII whitespace between byte
pairs; no transaction field relevant to the claims contains whitespace,
so the embedding omits that case.) -/
def is_hex (s : String) : Bool :=
  decide (s.length % 2 = 0) && s.toList.all isHexChar

/-- A verification verdict: the `(ok, reason)` pair returned by
`verify_transaction`. -/
abbrev Verdict := Bool × String

/-- Lines 133-146 of `verify_transaction`: the `collectible_create` and
`collectible_transfer` checks, followed by the final `return True, "OK"`.
Every token-typed or unknown-typed transaction falls through both `if`s.
The result pairs the verdict (or exception) with the ledger state after
the call, mirroring that no statement assigns to `self`. -/
def collectible_checks (tx_type : PyVal) (tx : Tx) (st : LedgerState) :
    Except PyErr Verdict × LedgerState :=
  if tx_type = PyVal.str "collectible_create" then
    -- `if not tx.get("id") or tx["id"] in self.collectibles`
    if ¬ (dictGet tx "id" PyVal.pyNone).truthy then
      (Except.ok (false, "ID inválido o ya existe"), st)
    else if ¬ (dictGet tx "id" PyVal.pyNone).hashable then
      (Except.error PyErr.typeError, st)
    else if (pymapLookup st.collectibles (dictGet tx "id" PyVal.pyNone)).isSome then
      (Except.ok (false, "ID inválido o ya existe"), st)
    -- `if not tx.get("to")`
    else if ¬ (dictGet tx "to" PyVal.pyNone).truthy then
      (Except.ok (false, "Propietario requerido"), st)
    else (Except.ok (true, "OK"), st)
  else if tx_type = PyVal.str "collectible_transfer" then
    -- `cid = tx.get("id"); if not cid or cid not in self.collectibles`
    if ¬ (dictGet tx "id" PyVal.pyNone).truthy then
      (Except.ok (false, "Coleccionable no existe"), st)
    else if ¬ (dictGet tx "id" PyVal.pyNone).hashable then
      (Except.error PyErr.typeError, st)
    else
      match pymapLookup st.collectibles (dictGet tx "id" PyVal.pyNone) with
      | Option.none => (Except.ok (false, "Coleccionable no existe"), st)
      | some c =>
        -- `if self.collectibles[cid]["owner"] != tx.get("from")`
        if c.owner ≠ dictGet tx "from" PyVal.pyNone then
          (Except.ok (false, "No eres el dueño"), st)
        else (Except.ok (true, "OK"), st)
  else (Except.ok (true, "OK"), st)

/-- Lines 103-130 of `verify_transaction`: the field, address-binding,
balance and signature checks for a non-GENESIS token transaction.  On
success control falls through to the collectible `if`s (which cannot
match, the type being `"token"`) and the final `return True, "OK"`. -/
def token_checks (crypto : Crypto) (tx : Tx) (st : LedgerState) :
    Except PyErr Verdict × LedgerState :=
  -- `if not isinstance(tx.get('from'), str) or not isinstance(tx.get('to'), str)`
  match dictGet tx "from" PyVal.pyNone, dictGet tx "to" PyVal.pyNone with
  | PyVal.str f, PyVal.str t =>
    -- `if not isinstance(tx.get('amount'), int) or tx['amount'] <= 0`
    (match dictGet tx "amount" PyVal.pyNone with
    | PyVal.int a =>
      if a ≤ 0 then
        (Except.ok (false, "El campo \x27amount\x27 debe ser un entero positivo"), st)
      else
        -- `if not isinstance(tx.get('pubkey'), str) or not is_hex(tx['pubkey'])`
        (match dictGet tx "pubkey" PyVal.pyNone with
        | PyVal.str pk =>
          if ¬ is_hex pk then
            (Except.ok (false, "El campo \x27pubkey\x27 debe ser un hex válido"), st)
          else
            -- `if not isinstance(tx.get('signature'), str) or not is_hex(tx['signature'])`
            (match dictGet tx "signature" PyVal.pyNone with
            | PyVal.str sg =>
              if ¬ is_hex sg then
                (Except.ok (false, "El campo \x27signature\x27 debe ser un hex válido"), st)
              -- `derived_from = address_from_pubkey_hex(tx['pubkey'])`
              else if crypto.deriveAddress pk ≠ f then
                (Except.ok (false,
                  "La dirección \x27from\x27 no corresponde a la clave pública \x27pubkey\x27"), st)
              -- `if self.balances.get(tx['from'], 0) < tx['amount']`
              else if balGet st.balances (PyVal.str f) < a then
                (Except.ok (false, "Saldo insuficiente"), st)
              else
                -- `vk.verify(bytes.fromhex(tx['signature']), message.encode())`
                match crypto.verifySig pk sg (f ++ t ++ toString a) with
                | SigOutcome.badSignature => (Except.ok (false, "Firma inválida"), st)
                | SigOutcome.err m =>
                  (Except.ok (false, "Error verificando firma: " ++ m), st)
                | SigOutcome.valid => collectible_checks (PyVal.str "token") tx st
            | _ =>
              (Except.ok (false, "El campo \x27signature\x27 debe ser un hex válido"), st))
        | _ =>
          (Except.ok (false, "El campo \x27pubkey\x27 debe ser un hex válido"), st))
    | _ =>
      (Except.ok (false, "El campo \x27amount\x27 debe ser un entero positivo"), st))
  | _, _ =>
    (Except.ok (false, "Campos \x27from\x27 y \x27to\x27 deben ser strings"), st)

/-- `Blockchain.verify_transaction` (lines 97-146), as a call on the
ledger object: the returned pair is the method's result (or the exception
it raises) together with the object state after the call.  Note line 101
(`if tx_type == "token" and tx['from'] != "GENESIS"`) subscripts
`tx['from']` directly, so a token-typed transaction without a `from` key
raises `KeyError` instead of returning a verdict. -/
def verify_call (crypto : Crypto) (tx : Tx) (st : LedgerState) :
    Except PyErr Verdict × LedgerState :=
  if dictGet tx "type" (PyVal.str "token") = PyVal.str "token" then
    match dictItem tx "from" with
    | Except.error e => (Except.error e, st)
    | Except.ok fromV =>
      if fromV ≠ PyVal.str "GENESIS" then token_checks crypto tx st
      else collectible_checks (dictGet tx "type" (PyVal.str "token")) tx st
  else collectible_checks (dictGet tx "type" (PyVal.str "token")) tx st

/-- The verdict (or exception) of `verify_transaction`. -/
def verify_transaction (crypto : Crypto) (st : LedgerState) (tx : Tx) :
    Except PyErr Verdict :=
  (verify_call crypto tx st).1

/-- The validation loop of `add_block` (lines 150-153): verify each
transaction in order against the current state; on the first failed
verdict raise `ValueError(msg)`; an exception escaping
`verify_transaction` propagates as-is.  `none` means the whole batch
verified. -/
def validate_all (crypto : Crypto) (st : LedgerState) : List Tx → Option PyErr
  | [] => Option.none
  | tx :: rest =>
    match verify_transaction crypto st tx with
    | Except.error e => some e
    | Except.ok (ok, msg) =>
      if ok then validate_all crypto st rest else some (PyErr.valueError msg)

/-- `tx['amount']` coerced by Python's `int` arithmetic: anything but an
int raises `TypeError`. -/
def asInt : PyVal → Except PyErr Int
  | PyVal.int n => Except.ok n
  | _ => Except.error PyErr.typeError

/-- `self.balances.get(k, 0)` with a run-time key: an unhashable key
raises `TypeError`. -/
def balGetChecked (m : Balances) (k : PyVal) : Except PyErr Int :=
  if k.hashable then Except.ok (balGet m k) else Except.error PyErr.typeError

/-- `self.balances[k] = v` with a run-time key. -/
def balSetChecked (m : Balances) (k : PyVal) (v : Int) : Except PyErr Balances :=
  if k.hashable then Except.ok (pymapSet m k v) else Except.error PyErr.typeError

/-- Line 169-170: `if tx['from'] != "GENESIS":
balances[tx['from']] = balances.get(tx['from'], 0) - tx['amount']`. -/
def apply_token_debit (tx : Tx) (fromV : PyVal) (st : LedgerState) :
    Except PyErr LedgerState :=
  if fromV ≠ PyVal.str "GENESIS" then
    match balGetChecked st.balances fromV with
    | Except.error e => Except.error e
    | Except.ok cur =>
      match dictItem tx "amount" with
      | Except.error e => Except.error e
      | Except.ok amtV =>
        match asInt amtV with
        | Except.error e => Except.error e
        | Except.ok a =>
          match balSetChecked st.balances fromV (cur - a) with
          | Except.error e => Except.error e
          | Except.ok bal => Except.ok { st with balances := bal }
  else Except.ok st

/-- Line 171: `balances[tx['to']] = balances.get(tx['to'], 0) + tx['amount']`. -/
def apply_token_credit (tx : Tx) (st : LedgerState) : Except PyErr LedgerState :=
  match dictItem tx "to" with
  | Except.error e => Except.error e
  | Except.ok toV =>
    match balGetChecked st.balances toV with
    | Except.error e => Except.error e
    | Except.ok cur =>
      match dictItem tx "amount" with
      | Except.error e => Except.error e
      | Except.ok amtV =>
        match asInt amtV with
        | Except.error e => Except.error e
        | Except.ok a =>
          match balSetChecked st.balances toV (cur + a) with
          | Except.error e => Except.error e
          | Except.ok bal => Except.ok { st with balances := bal }

/-- The state effect of one token transaction (lines 168-171): the
conditional debit of `from`, then the credit of `to`. -/
def apply_token (tx : Tx) (st : LedgerState) : Except PyErr LedgerState :=
  match dictItem tx "from" with
  | Except.error e => Except.error e
  | Except.ok fromV =>
    match apply_token_debit tx fromV st with
    | Except.error e => Except.error e
    | Except.ok st₁ => apply_token_credit tx st₁

/-- The state effect of one `collectible_create` (lines 173-181). -/
def apply_create (tx : Tx) (now : Nat) (st : LedgerState) : Except PyErr LedgerState :=
  match dictItem tx "id" with
  | Except.error e => Except.error e
  | Except.ok cid =>
    match dictItem tx "to" with
    | Except.error e => Except.error e
    | Except.ok toV =>
      if cid.hashable then
        let record : Collectible :=
          { id := cid, name := dictGet tx "name" PyVal.pyNone, owner := toV,
            metadata := dictGet tx "metadata" (PyVal.dict []), timestamp := now }
        Except.ok { st with collectibles := pymapSet st.collectibles cid record }
      else Except.error PyErr.typeError

/-- The state effect of one `collectible_transfer` (lines 183-186):
`self.collectibles[cid]["owner"] = tx["to"]` and a fresh timestamp. -/
def apply_transfer (tx : Tx) (now : Nat) (st : LedgerState) : Except PyErr LedgerState :=
  match dictItem tx "id" with
  | Except.error e => Except.error e
  | Except.ok cid =>
    match dictItem tx "to" with
    | Except.error e => Except.error e
    | Except.ok toV =>
      if cid.hashable then
        match pymapLookup st.collectibles cid with
        | Option.none => Except.error (PyErr.keyErrorVal cid)
        | some c =>
          let record : Collectible := { c with owner := toV, timestamp := now }
          Except.ok { st with collectibles := pymapSet st.collectibles cid record }
      else Except.error PyErr.typeError

/-- One iteration of the apply loop of `add_block` (lines 165-186),
dispatching on `tx.get("type", "token")`; a transaction of any other
type has no state effect. -/
def apply_tx (tx : Tx) (now : Nat) (st : LedgerState) : Except PyErr LedgerState :=
  if dictGet tx "type" (PyVal.str "token") = PyVal.str "token" then
    apply_token tx st
  else if dictGet tx "type" (PyVal.str "token") = PyVal.str "collectible_create" then
    apply_create tx now st
  else if dictGet tx "type" (PyVal.str "token") = PyVal.str "collectible_transfer" then
    apply_transfer tx now st
  else Except.ok st

/-- The whole apply loop: on an exception the loop stops, keeping the
mutations already made (Python's in-place dict updates survive the
raised exception). -/
def apply_all (now : Nat) : List Tx → LedgerState → LedgerState × Option PyErr
  | [], st => (st, Option.none)
  | tx :: rest, st =>
    match apply_tx tx now st with
    | Except.ok st' => apply_all now rest st'
    | Except.error e => (st, some e)

/-- Lines 155-162 of `add_block`: package the batch into a block whose
`prev_hash` is the chain tail's hash (or the sentinel `"0"`), whose
`index` is the next 1-based position, and whose `hash` is the digest of
the other four fields.  `digest` abstracts
`sha256(json.dumps(block, sort_keys=True))`: the key-sorted canonical
JSON serialization followed by SHA-256, applied to exactly the
`BlockContent` fields (the `hash` key is added only afterwards). -/
def build_block (digest : BlockContent → String) (chain : List Block)
    (transactions : List Tx) (now : Nat) : Block :=
  let content : BlockContent :=
    { index := chain.length + 1
      timestamp := now
      transactions := transactions
      prev_hash := match chain.getLast? with
                   | some b => b.hash
                   | Option.none => "0" }
  content.withHash (digest content)

/-- `Blockchain.add_block` (lines 148-190): validate the whole batch
against the current state, build the block, apply all effects, append,
and return the new block's hash.  The returned state is the object state
after the call: unchanged on a validation failure (the `ValueError` is
raised before any mutation), partially mutated if an exception escapes
the apply loop (no block is appended then). -/
def add_block (crypto : Crypto) (digest : BlockContent → String)
    (st : LedgerState) (transactions : List Tx) (now : Nat) :
    LedgerState × Except PyErr String :=
  match validate_all crypto st transactions with
  | some e => (st, Except.error e)
  | Option.none =>
    let block := build_block digest st.chain transactions now
    match apply_all now transactions st with
    | (st', some e) => (st', Except.error e)
    | (st', Option.none) =>
      ({ st' with chain := st'.chain ++ [block] }, Except.ok block.hash)

/-- The genesis transaction built by `ensure_founder_and_genesis`
(lines 218-225). -/
def genesis_tx (founder pubkeyHex : String) : Tx :=
  [("type", PyVal.str "token"),
   ("from", PyVal.str "GENESIS"),
   ("to", PyVal.str founder),
   ("amount", PyVal.int SUPPLY_TOTAL),
   ("pubkey", PyVal.str pubkeyHex),
   ("signature", PyVal.str "GENESIS")]

/-- The genesis half of `ensure_founder_and_genesis` (lines 216-229): if
the chain is empty, add a block holding the genesis transaction and then
overwrite `balances[founder]` with `SUPPLY_TOTAL`.  (On an empty state
the genesis `add_block` always succeeds — proved below — so discarding
its `Except` component is faithful.) -/
def ensure_genesis (crypto : Crypto) (digest : BlockContent → String)
    (st : LedgerState) (founder pubkeyHex : String) (now : Nat) : LedgerState :=
  if st.chain.length = 0 then
    let st' := (add_block crypto digest st [genesis_tx founder pubkeyHex] now).1
    { st' with balances := pymapSet st'.balances (PyVal.str founder) SUPPLY_TOTAL }
  else st

/-- The bootstrapped state: a fresh install after
`ensure_founder_and_genesis`. -/
def boot_state (crypto : Crypto) (digest : BlockContent → String)
    (founder pubkeyHex : String) (now : Nat) : LedgerState :=
  ensure_genesis crypto digest empty_state founder pubkeyHex now

/-- Reachability by successful `add_block` calls whose batches satisfy
`P`, starting from `start`.  Only calls returning `.ok` (a block was
appended) occur in the trace. -/
inductive ReachableFrom (crypto : Crypto) (digest : BlockContent → String)
    (P : List Tx → Prop) (start : LedgerState) : LedgerState → Prop where
  | refl : ReachableFrom crypto digest P start start
  | step {st' st'' : LedgerState} {txs : List Tx} {now : Nat} {h : String} :
      ReachableFrom crypto digest P start st' →
      P txs →
      add_block crypto digest st' txs now = (st'', Except.ok h) →
      ReachableFrom crypto digest P start st''

/-- `sum(self.balances.values())`. -/
def sum_balances (m : Balances) : Int :=
  (m.map Prod.snd).sum

/-- A batch with no supply-issuing transaction: no token transaction
whose `from` field is the sentinel `GENESIS`. -/
def NoMintTx (tx : Tx) : Prop :=
  dictGet tx "type" (PyVal.str "token") = PyVal.str "token" →
    dictGet tx "from" PyVal.pyNone ≠ PyVal.str "GENESIS"

def NoMintBatch (txs : List Tx) : Prop := ∀ tx ∈ txs, NoMintTx tx

/-- The hash-linking invariant of a chain suffix: starting at 1-based
position `idx` with expected predecessor hash `prev`, each block's
`prev_hash` is the previous block's stored hash (the sentinel `"0"` at
the head of the whole chain), its `index` is its position, and its
stored `hash` is the digest of its own non-hash fields. -/
def linked_from (digest : BlockContent → String) :
    String → Nat → List Block → Prop
  | _, _, [] => True
  | prev, idx, b :: rest =>
      b.prev_hash = prev ∧ b.index = idx ∧ b.hash = digest b.content ∧
      linked_from digest b.hash (idx + 1) rest

/-- Concrete crypto collaborator used for witnesses: every pubkey hex
derives to the address `"f"`, every signature verifies. -/
def crypto0 : Crypto := ⟨fun _ => "f", fun _ _ _ => SigOutcome.valid⟩

/-- Concrete digest used for witnesses. -/
def digest0 : BlockContent → String := fun c => toString c.index

/-- A concrete bootstrapped ledger with founder address `"f"`. -/
def boot0 : LedgerState := boot_state crypto0 digest0 "f" "aa" 0

/-- A post-bootstrap GENESIS-sender token transaction (minting). -/
def mint_tx (amt : Int) : Tx :=
  [("type", PyVal.str "token"), ("from", PyVal.str "GENESIS"),
   ("to", PyVal.str "x"), ("amount", PyVal.int amt)]

/-- A founder-signed spend of `amt` from `"f"` to `"g"`, valid under
`crypto0`. -/
def spend_tx (amt : Int) : Tx :=
  [("from", PyVal.str "f"), ("to", PyVal.str "g"), ("amount", PyVal.int amt),
   ("pubkey", PyVal.str "aa"), ("signature", PyVal.str "bb")]

/-! ### Association-map lemmas -/

theorem pymapLookup_set_self {β : Type} (m : PyMap β) (k : PyVal) (v : β) :
    pymapLookup (pymapSet m k v) k = some v := by
  induction m with
  | nil => simp [pymapSet, pymapLookup]
  | cons hd tl ih =>
    obtain ⟨k', v'⟩ := hd
    by_cases hk : k' = k
    · simp [pymapSet, pymapLookup, hk]
    · simp [pymapSet, pymapLookup, hk, ih]

theorem pymapLookup_set_ne {β : Type} (m : PyMap β) (k k' : PyVal) (v : β)
    (h : k' ≠ k) : pymapLookup (pymapSet m k v) k' = pymapLookup m k' := by
  have hks : k ≠ k' := fun he => h he.symm
  induction m with
  | nil => simp [pymapSet, pymapLookup, hks]
  | cons hd tl ih =>
    obtain ⟨k₀, v₀⟩ := hd
    by_cases hk : k₀ = k
    · subst hk
      simp [pymapSet, pymapLookup, hks]
    · simp only [pymapSet, hk, if_false, pymapLookup]
      by_cases hk' : k₀ = k'
      · simp [hk']
      · simp [hk', ih]

theorem sum_balances_set (m : Balances) (k : PyVal) (v : Int) :
    sum_balances (pymapSet m k v) = sum_balances m + v - balGet m k := by
  induction m with
  | nil => simp [pymapSet, sum_balances, balGet, pymapLookup]
  | cons hd tl ih =>
    obtain ⟨k₀, v₀⟩ := hd
    by_cases hk : k₀ = k
    · subst hk
      simp only [pymapSet, if_pos, sum_balances, List.map_cons, List.sum_cons,
        balGet, pymapLookup, Option.getD_some, if_true]
      ring
    · simp only [pymapSet, hk, if_false, sum_balances, List.map_cons, List.sum_cons,
        balGet, pymapLookup] at ih ⊢
      rw [ih]
      ring

/-! ### Validator purity (claim C8 groundwork) -/

theorem collectible_checks_snd (ty : PyVal) (tx : Tx) (st : LedgerState) :
    (collectible_checks ty tx st).2 = st := by
  unfold collectible_checks
  repeat' first | rfl | split

theorem token_checks_snd (crypto : Crypto) (tx : Tx) (st : LedgerState) :
    (token_checks crypto tx st).2 = st := by
  unfold token_checks
  repeat' first | rfl | exact collectible_checks_snd _ _ _ | split

theorem verify_call_snd (crypto : Crypto) (tx : Tx) (st : LedgerState) :
    (verify_call crypto tx st).2 = st := by
  unfold verify_call
  repeat' first
    | rfl
    | exact collectible_checks_snd _ _ _
    | exact token_checks_snd _ _ _
    | split

/-- C8 — Validator purity and determinism: a call to
`verify_transaction` leaves the ledger object exactly as it was
(`verify_call` returns the input state at every exit point), and a
second call on the state left by the first returns the same verdict and
reason — validation is a pure, deterministic function of the transaction
and the state. -/
theorem C8_validator_pure_deterministic :
    ∀ (crypto : Crypto) (tx : Tx) (st : LedgerState),
      (verify_call crypto tx st).2 = st ∧
      verify_call crypto tx (verify_call crypto tx st).2 = verify_call crypto tx st := by
  intro crypto tx st
  refine ⟨verify_call_snd crypto tx st, ?_⟩
  rw [verify_call_snd]

/-! ### Batch validation lemmas -/

theorem validate_all_ok (crypto : Crypto) (st : LedgerState) (txs : List Tx)
    (h : ∀ t ∈ txs, verify_transaction crypto st t = Except.ok (true, "OK")) :
    validate_all crypto st txs = Option.none := by
  induction txs with
  | nil => rfl
  | cons t rest ih =>
    have ht := h t (List.mem_cons_self t rest)
    simp only [validate_all, ht]
    exact ih fun t' ht' => h t' (List.mem_cons_of_mem t ht')

theorem validate_all_prefix_fail (crypto : Crypto) (st : LedgerState)
    (l₁ l₂ : List Tx) (tx : Tx) (msg : String)
    (hok : ∀ t ∈ l₁, verify_transaction crypto st t = Except.ok (true, "OK"))
    (hfail : verify_transaction crypto st tx = Except.ok (false, msg)) :
    validate_all crypto st (l₁ ++ tx :: l₂) = some (PyErr.valueError msg) := by
  induction l₁ with
  | nil => simp [validate_all, hfail]
  | cons t rest ih =>
    have ht := hok t (List.mem_cons_self t rest)
    simp only [List.cons_append, validate_all, ht]
    exact ih fun t' ht' => hok t' (List.mem_cons_of_mem t ht')

/-- C2 — Rejection atomicity.  First part: if every transaction before
`tx` in the batch verifies and `tx` fails with reason `msg`, then
`add_block` rejects the whole batch by raising `ValueError(msg)` (the
first failure's reason) and returns with the ledger state exactly as it
was: no block appended, no effect applied.  Second part: a non-GENESIS
token transaction that passes the shape, address-binding checks but
whose amount exceeds `balances.get(from, 0)` is rejected with the
insufficient-balance reason `"Saldo insuficiente"`. -/
theorem C2_rejection_atomicity :
    (∀ (crypto : Crypto) (digest : BlockContent → String) (st : LedgerState)
       (now : Nat) (l₁ l₂ : List Tx) (tx : Tx) (msg : String),
       (∀ t ∈ l₁, verify_transaction crypto st t = Except.ok (true, "OK")) →
       verify_transaction crypto st tx = Except.ok (false, msg) →
       add_block crypto digest st (l₁ ++ tx :: l₂) now =
         (st, Except.error (PyErr.valueError msg)))
    ∧ (∀ (crypto : Crypto) (st : LedgerState) (tx : Tx) (f t pk sg : String) (a : Int),
       dictGet tx "type" (PyVal.str "token") = PyVal.str "token" →
       dictLookup tx "from" = some (PyVal.str f) → f ≠ "GENESIS" →
       dictLookup tx "to" = some (PyVal.str t) →
       dictLookup tx "amount" = some (PyVal.int a) → 0 < a →
       dictLookup tx "pubkey" = some (PyVal.str pk) → is_hex pk = true →
       dictLookup tx "signature" = some (PyVal.str sg) → is_hex sg = true →
       crypto.deriveAddress pk = f →
       balGet st.balances (PyVal.str f) < a →
       verify_transaction crypto st tx = Except.ok (false, "Saldo insuficiente")) := by
  constructor
  · intro crypto digest st now l₁ l₂ tx msg hok hfail
    have hv := validate_all_prefix_fail crypto st l₁ l₂ tx msg hok hfail
    simp [add_block, hv]
  · intro crypto st tx f t pk sg a htype hfrom hf hto hamt hpos hpk hpkhex hsg hsghex
      hderive hbal
    have hfromv : dictGet tx "from" PyVal.pyNone = PyVal.str f := by
      simp [dictGet, hfrom]
    have htov : dictGet tx "to" PyVal.pyNone = PyVal.str t := by
      simp [dictGet, hto]
    have hamtv : dictGet tx "amount" PyVal.pyNone = PyVal.int a := by
      simp [dictGet, hamt]
    have hpkv : dictGet tx "pubkey" PyVal.pyNone = PyVal.str pk := by
      simp [dictGet, hpk]
    have hsgv : dictGet tx "signature" PyVal.pyNone = PyVal.str sg := by
      simp [dictGet, hsg]
    have hfromitem : dictItem tx "from" = Except.ok (PyVal.str f) := by
      simp [dictItem, hfrom]
    have hfg : PyVal.str f ≠ PyVal.str "GENESIS" := by simp [hf]
    simp only [verify_transaction, verify_call, htype, if_pos, hfromitem,
      token_checks, hfromv, htov, hamtv, hpkv, hsgv, hfg, if_true,
      hpkhex, hsghex, hderive]
    simp [hf, not_le.mpr hpos, hbal]

/-- Witness for C2 at a concrete input: on the bootstrapped ledger, a
founder-addressed spend of 200,000,000 (more than the 100,000,000
balance) is rejected with the insufficient-balance reason and
`add_block` leaves the state untouched. -/
theorem C2_rejection_atomicity_witness :
    add_block crypto0 digest0 boot0 [spend_tx 200000000] 1 =
      (boot0, Except.error (PyErr.valueError "Saldo insuficiente")) ∧
    verify_transaction crypto0 boot0 (spend_tx 200000000) =
      Except.ok (false, "Saldo insuficiente") := by
  have h2 := C2_rejection_atomicity.2 crypto0 boot0 (spend_tx 200000000)
    "f" "g" "aa" "bb" 200000000 (by rfl) (by rfl) (by decide) (by rfl) (by rfl)
    (by decide) (by rfl) (by rfl) (by rfl) (by rfl) (by rfl) (by decide)
  have h1 := C2_rejection_atomicity.1 crypto0 digest0 boot0 1 [] []
    (spend_tx 200000000) "Saldo insuficiente" (by simp) h2
  exact ⟨h1, h2⟩

/-! ### Unknown transaction types (claim C10) -/

theorem verify_unknown_type (crypto : Crypto) (st : LedgerState) (tx : Tx)
    (ty : PyVal) (hty : dictLookup tx "type" = some ty)
    (h1 : ty ≠ PyVal.str "token") (h2 : ty ≠ PyVal.str "collectible_create")
    (h3 : ty ≠ PyVal.str "collectible_transfer") :
    verify_transaction crypto st tx = Except.ok (true, "OK") := by
  simp [verify_transaction, verify_call, collectible_checks, dictGet, hty, h1, h2, h3]

theorem apply_unknown_type (tx : Tx) (now : Nat) (st : LedgerState)
    (ty : PyVal) (hty : dictLookup tx "type" = some ty)
    (h1 : ty ≠ PyVal.str "token") (h2 : ty ≠ PyVal.str "collectible_create")
    (h3 : ty ≠ PyVal.str "collectible_transfer") :
    apply_tx tx now st = Except.ok st := by
  simp [apply_tx, dictGet, hty, h1, h2, h3]

theorem apply_all_id (now : Nat) (txs : List Tx) (st : LedgerState)
    (h : ∀ t ∈ txs, ∀ s, apply_tx t now s = Except.ok s) :
    apply_all now txs st = (st, Option.none) := by
  induction txs with
  | nil => rfl
  | cons t rest ih =>
    have ht := h t (List.mem_cons_self t rest) st
    simp only [apply_all, ht]
    exact ih fun t' ht' => h t' (List.mem_cons_of_mem t ht')

theorem dictLookup_typeCons (v : PyVal) (tx : Tx) (k : String)
    (hk : ("type" = k) = False) :
    dictLookup (("type", v) :: tx) k = dictLookup tx k := by
  simp [dictLookup, hk]

theorem collectible_checks_typeCons (ty v : PyVal) (tx : Tx) (st : LedgerState) :
    collectible_checks ty (("type", v) :: tx) st = collectible_checks ty tx st := by
  simp only [collectible_checks, dictGet,
    dictLookup_typeCons v tx "id" (by decide),
    dictLookup_typeCons v tx "to" (by decide),
    dictLookup_typeCons v tx "from" (by decide)]

theorem token_checks_typeCons (crypto : Crypto) (v : PyVal) (tx : Tx)
    (st : LedgerState) :
    token_checks crypto (("type", v) :: tx) st = token_checks crypto tx st := by
  simp only [token_checks, dictGet,
    dictLookup_typeCons v tx "from" (by decide),
    dictLookup_typeCons v tx "to" (by decide),
    dictLookup_typeCons v tx "amount" (by decide),
    dictLookup_typeCons v tx "pubkey" (by decide),
    dictLookup_typeCons v tx "signature" (by decide),
    collectible_checks_typeCons]

/-- C10 — Unknown types pass the validator.  First part: a batch whose
transactions all carry a `type` that is none of `"token"`,
`"collectible_create"`, `"collectible_transfer"` verifies (each verdict
is `(True, "OK")`), and `add_block` appends a block holding exactly
those transactions while balances and collectibles are unchanged.
Second part: a transaction with no `type` key is treated as type
`"token"` — adding an explicit `"type": "token"` entry changes neither
the verdict nor the state effect. -/
theorem C10_unknown_types_pass :
    (∀ (crypto : Crypto) (digest : BlockContent → String) (st : LedgerState)
       (now : Nat) (txs : List Tx),
       (∀ tx ∈ txs, ∃ ty, dictLookup tx "type" = some ty ∧
          ty ≠ PyVal.str "token" ∧ ty ≠ PyVal.str "collectible_create" ∧
          ty ≠ PyVal.str "collectible_transfer") →
       (∀ tx ∈ txs, verify_transaction crypto st tx = Except.ok (true, "OK")) ∧
       add_block crypto digest st txs now =
         ({ st with chain := st.chain ++ [build_block digest st.chain txs now] },
           Except.ok (build_block digest st.chain txs now).hash))
    ∧ (∀ (crypto : Crypto) (st : LedgerState) (now : Nat) (tx : Tx),
       dictLookup tx "type" = Option.none →
       verify_call crypto (("type", PyVal.str "token") :: tx) st =
         verify_call crypto tx st ∧
       apply_tx (("type", PyVal.str "token") :: tx) now st = apply_tx tx now st) := by
  constructor
  · intro crypto digest st now txs h
    have hver : ∀ tx ∈ txs, verify_transaction crypto st tx = Except.ok (true, "OK") := by
      intro tx htx
      obtain ⟨ty, hty, h1, h2, h3⟩ := h tx htx
      exact verify_unknown_type crypto st tx ty hty h1 h2 h3
    refine ⟨hver, ?_⟩
    have hval := validate_all_ok crypto st txs hver
    have happ : apply_all now txs st = (st, Option.none) := by
      refine apply_all_id now txs st fun t ht s => ?_
      obtain ⟨ty, hty, h1, h2, h3⟩ := h t ht
      exact apply_unknown_type t now s ty hty h1 h2 h3
    simp [add_block, hval, happ]
  · intro crypto st now tx hty
    have htype : dictGet (("type", PyVal.str "token") :: tx) "type" (PyVal.str "token") =
        PyVal.str "token" := by simp [dictGet, dictLookup]
    have htype' : dictGet tx "type" (PyVal.str "token") = PyVal.str "token" := by
      simp [dictGet, hty]
    have hitem : dictItem (("type", PyVal.str "token") :: tx) "from" = dictItem tx "from" := by
      simp [dictItem, dictLookup_typeCons _ tx "from" (by decide)]
    constructor
    · simp only [verify_call, htype, htype', if_true, if_pos, hitem,
        token_checks_typeCons, collectible_checks_typeCons]
    · simp only [apply_tx, htype, htype', if_true, if_pos, apply_token,
        hitem]
      have hdebit : ∀ fv s, apply_token_debit (("type", PyVal.str "token") :: tx) fv s =
          apply_token_debit tx fv s := by
        intro fv s
        simp only [apply_token_debit,
          dictLookup_typeCons _ tx "amount" (by decide), dictItem]
      have hcredit : ∀ s, apply_token_credit (("type", PyVal.str "token") :: tx) s =
          apply_token_credit tx s := by
        intro s
        simp only [apply_token_credit, dictItem,
          dictLookup_typeCons _ tx "to" (by decide),
          dictLookup_typeCons _ tx "amount" (by decide)]
      simp only [hdebit, hcredit]

/-- Witness for C10 at a concrete input: a single `"mystery"`-typed
transaction is accepted on the bootstrapped ledger, a block is appended,
and balances and collectibles are unchanged. -/
theorem C10_unknown_types_pass_witness :
    verify_transaction crypto0 boot0 [("type", PyVal.str "mystery")] =
      Except.ok (true, "OK") ∧
    add_block crypto0 digest0 boot0 [[("type", PyVal.str "mystery")]] 4 =
      ({ boot0 with chain := boot0.chain ++
          [build_block digest0 boot0.chain [[("type", PyVal.str "mystery")]] 4] },
        Except.ok (build_block digest0 boot0.chain [[("type", PyVal.str "mystery")]] 4).hash) := by
  have h := (C10_unknown_types_pass.1 crypto0 digest0 boot0 4
    [[("type", PyVal.str "mystery")]]
    (by intro tx htx
        simp only [List.mem_singleton] at htx
        subst htx
        exact ⟨PyVal.str "mystery", by rfl, by decide, by decide, by decide⟩))
  exact ⟨h.1 _ (List.mem_singleton.mpr rfl), h.2⟩

/-! ### Collectible transfer frame (claim C7) -/

/-- A concrete `collectible_create` transaction. -/
def create_tx0 : Tx :=
  [("type", PyVal.str "collectible_create"), ("id", PyVal.str "art1"),
   ("to", PyVal.str "A"), ("name", PyVal.str "Piece")]

/-- A concrete `collectible_transfer` transaction. -/
def transfer_tx0 : Tx :=
  [("type", PyVal.str "collectible_transfer"), ("id", PyVal.str "art1"),
   ("from", PyVal.str "A"), ("to", PyVal.str "B")]

/-- The bootstrapped ledger after `create_tx0` was applied. -/
def st_art : LedgerState := (add_block crypto0 digest0 boot0 [create_tx0] 5).1

/-- C7 — Collectible transfer frame: a valid `collectible_transfer`
(the id exists, is truthy and hashable, and the stored owner equals the
transaction's `from`) verifies, and applying it yields a state in which
that collectible's owner is the transaction's `to` and its timestamp is
the apply time, while its `id`, `name` and `metadata` are unchanged,
every other collectible entry is unchanged, and balances (and the chain)
are unchanged. -/
theorem C7_collectible_transfer_frame :
    ∀ (crypto : Crypto) (st : LedgerState) (now : Nat) (tx : Tx)
      (cid tv : PyVal) (c : Collectible),
      dictGet tx "type" (PyVal.str "token") = PyVal.str "collectible_transfer" →
      dictLookup tx "id" = some cid → cid.truthy = true → cid.hashable = true →
      pymapLookup st.collectibles cid = some c →
      c.owner = dictGet tx "from" PyVal.pyNone →
      dictLookup tx "to" = some tv →
      verify_transaction crypto st tx = Except.ok (true, "OK") ∧
      ∃ st', apply_tx tx now st = Except.ok st' ∧
        st'.chain = st.chain ∧ st'.balances = st.balances ∧
        pymapLookup st'.collectibles cid = some ⟨c.id, c.name, tv, c.metadata, now⟩ ∧
        (∀ k, k ≠ cid → pymapLookup st'.collectibles k = pymapLookup st.collectibles k) := by
  intro crypto st now tx cid tv c htype hid htruthy hhash hlook howner hto
  have hidget : dictGet tx "id" PyVal.pyNone = cid := by simp [dictGet, hid]
  have hiditem : dictItem tx "id" = Except.ok cid := by simp [dictItem, hid]
  have htoitem : dictItem tx "to" = Except.ok tv := by simp [dictItem, hto]
  constructor
  · have hne : dictGet tx "type" (PyVal.str "token") ≠ PyVal.str "token" := by
      rw [htype]; decide
    have hne2 : dictGet tx "type" (PyVal.str "token") ≠ PyVal.str "collectible_create" := by
      rw [htype]; decide
    simp only [verify_transaction, verify_call, if_neg hne, collectible_checks,
      if_neg hne2, if_pos htype, hidget, htruthy, hhash, hlook, howner]
    simp
  · refine ⟨⟨st.chain, st.balances,
      pymapSet st.collectibles cid ({ c with owner := tv, timestamp := now })⟩,
      ?_, rfl, rfl, ?_, ?_⟩
    · have hne : dictGet tx "type" (PyVal.str "token") ≠ PyVal.str "token" := by
        rw [htype]; decide
      have hne2 : dictGet tx "type" (PyVal.str "token") ≠ PyVal.str "collectible_create" := by
        rw [htype]; decide
      simp only [apply_tx, if_neg hne, if_neg hne2, if_pos htype, apply_transfer,
        hiditem, htoitem, hhash, hlook]
      simp
    · rw [pymapLookup_set_self]
    · intro k hk
      exact pymapLookup_set_ne st.collectibles cid k _ hk

/-- Witness for C7 at a concrete input: transferring collectible
`"art1"` from `"A"` to `"B"` on a ledger holding it reassigns the owner
and keeps `name` and `metadata`. -/
theorem C7_collectible_transfer_frame_witness :
    verify_transaction crypto0 st_art transfer_tx0 = Except.ok (true, "OK") ∧
    ∃ st', apply_tx transfer_tx0 6 st_art = Except.ok st' ∧
      pymapLookup st'.collectibles (PyVal.str "art1") =
        some ⟨PyVal.str "art1", PyVal.str "Piece", PyVal.str "B", PyVal.dict [], 6⟩ := by
  obtain ⟨hver, st', happ, _, _, hcid, _⟩ :=
    C7_collectible_transfer_frame crypto0 st_art 6 transfer_tx0
      (PyVal.str "art1") (PyVal.str "B")
      ⟨PyVal.str "art1", PyVal.str "Piece", PyVal.str "A", PyVal.dict [], 5⟩
      (by rfl) (by rfl) (by decide) (by decide) (by rfl) (by rfl) (by rfl)
  exact ⟨hver, st', happ, hcid⟩

/-! ### Snapshot batch validation (claim C4) -/

theorem balGet_set_self (m : Balances) (k : PyVal) (v : Int) :
    balGet (pymapSet m k v) k = v := by
  simp [balGet, pymapLookup_set_self]

theorem balGet_set_ne (m : Balances) (k k' : PyVal) (v : Int) (h : k' ≠ k) :
    balGet (pymapSet m k v) k' = balGet m k' := by
  simp [balGet, pymapLookup_set_ne m k k' v h]

/-- The balances after a plain spend of `a` from `f` to `u`, spelled
exactly as the two updates of lines 170-171 leave them. -/
def spend_bal (m : Balances) (f u : String) (a : Int) : Balances :=
  pymapSet (pymapSet m (PyVal.str f) (balGet m (PyVal.str f) - a)) (PyVal.str u)
    (balGet (pymapSet m (PyVal.str f) (balGet m (PyVal.str f) - a)) (PyVal.str u) + a)

theorem balGet_spend_bal (m : Balances) (f u : String) (a : Int) (hu : u ≠ f) :
    balGet (spend_bal m f u a) (PyVal.str f) = balGet m (PyVal.str f) - a := by
  have hfu : PyVal.str f ≠ PyVal.str u := by simp [Ne.symm hu]
  simp only [spend_bal, balGet_set_ne _ _ _ _ hfu, balGet_set_self]

/-- The effect of a plain spend (non-GENESIS token transaction with
string `from`/`to` and int amount): debit `from`, credit `to`, touching
nothing else. -/
theorem apply_token_spend (tx : Tx) (st : LedgerState) (f u : String) (a : Int)
    (hf : dictLookup tx "from" = some (PyVal.str f)) (hfg : f ≠ "GENESIS")
    (hto : dictLookup tx "to" = some (PyVal.str u))
    (hamt : dictLookup tx "amount" = some (PyVal.int a)) :
    apply_token tx st = Except.ok (LedgerState.mk st.chain
      (spend_bal st.balances f u a) st.collectibles) := by
  have hfg' : PyVal.str f ≠ PyVal.str "GENESIS" := by simp [hfg]
  simp only [apply_token, dictItem, hf, hto, hamt, apply_token_debit,
    apply_token_credit, balGetChecked, balSetChecked, asInt, PyVal.hashable,
    if_pos, if_neg, hfg', if_true, ite_not, spend_bal]
  simp [hfg']

/-- C4 — Snapshot batch validation: each transaction of a batch is
validated against the pre-batch state, so a batch of two spends from the
same sender, each individually verified against the stale balance, is
accepted and both debits are applied — the sender's resulting balance is
the pre-batch balance minus both amounts (which may be negative). -/
theorem C4_snapshot_batch_validation :
    ∀ (crypto : Crypto) (digest : BlockContent → String) (st : LedgerState)
      (now : Nat) (t1 t2 : Tx) (f u1 u2 : String) (a1 a2 : Int),
      dictGet t1 "type" (PyVal.str "token") = PyVal.str "token" →
      dictLookup t1 "from" = some (PyVal.str f) → f ≠ "GENESIS" →
      dictLookup t1 "to" = some (PyVal.str u1) → u1 ≠ f →
      dictLookup t1 "amount" = some (PyVal.int a1) →
      a1 ≤ balGet st.balances (PyVal.str f) →
      verify_transaction crypto st t1 = Except.ok (true, "OK") →
      dictGet t2 "type" (PyVal.str "token") = PyVal.str "token" →
      dictLookup t2 "from" = some (PyVal.str f) →
      dictLookup t2 "to" = some (PyVal.str u2) → u2 ≠ f →
      dictLookup t2 "amount" = some (PyVal.int a2) →
      a2 ≤ balGet st.balances (PyVal.str f) →
      verify_transaction crypto st t2 = Except.ok (true, "OK") →
      ∃ st' h, add_block crypto digest st [t1, t2] now = (st', Except.ok h) ∧
        balGet st'.balances (PyVal.str f) =
          balGet st.balances (PyVal.str f) - a1 - a2 := by
  intro crypto digest st now t1 t2 f u1 u2 a1 a2
    htype1 hfrom1 hfg hto1 hu1 hamt1 hle1 hver1 htype2 hfrom2 hto2 hu2 hamt2 hle2 hver2
  have hval : validate_all crypto st [t1, t2] = Option.none := by
    refine validate_all_ok crypto st [t1, t2] ?_
    intro t ht
    simp only [List.mem_cons, List.not_mem_nil, or_false] at ht
    rcases ht with rfl | rfl
    · exact hver1
    · exact hver2
  have happ1 : apply_tx t1 now st = Except.ok (LedgerState.mk st.chain
      (spend_bal st.balances f u1 a1) st.collectibles) := by
    simp only [apply_tx, htype1, if_pos]
    exact apply_token_spend t1 st f u1 a1 hfrom1 hfg hto1 hamt1
  have happ2 : apply_tx t2 now (LedgerState.mk st.chain
      (spend_bal st.balances f u1 a1) st.collectibles) =
      Except.ok (LedgerState.mk st.chain
        (spend_bal (spend_bal st.balances f u1 a1) f u2 a2) st.collectibles) := by
    simp only [apply_tx, htype2, if_pos]
    exact apply_token_spend t2 _ f u2 a2 hfrom2 hfg hto2 hamt2
  have happly : apply_all now [t1, t2] st = (LedgerState.mk st.chain
      (spend_bal (spend_bal st.balances f u1 a1) f u2 a2) st.collectibles,
      Option.none) := by
    simp [apply_all, happ1, happ2]
  refine ⟨LedgerState.mk (st.chain ++ [build_block digest st.chain [t1, t2] now])
      (spend_bal (spend_bal st.balances f u1 a1) f u2 a2) st.collectibles,
    (build_block digest st.chain [t1, t2] now).hash, ?_, ?_⟩
  · simp only [add_block, hval, happly]
  · show balGet (spend_bal (spend_bal st.balances f u1 a1) f u2 a2) (PyVal.str f) =
      balGet st.balances (PyVal.str f) - a1 - a2
    rw [balGet_spend_bal _ _ _ _ hu2, balGet_spend_bal _ _ _ _ hu1]

/-- Witness for C4 at a concrete input: two spends of 60,000,000 from
the founder's 100,000,000 balance are both accepted in one batch,
leaving the founder at -20,000,000. -/
theorem C4_snapshot_batch_validation_witness :
    ∃ st' h, add_block crypto0 digest0 boot0
        [spend_tx 60000000, spend_tx 60000000] 3 = (st', Except.ok h) ∧
      balGet st'.balances (PyVal.str "f") = -20000000 := by
  obtain ⟨st', h, heq, hbal⟩ := C4_snapshot_batch_validation crypto0 digest0 boot0 3
    (spend_tx 60000000) (spend_tx 60000000) "f" "g" "g" 60000000 60000000
    (by rfl) (by rfl) (by decide) (by rfl) (by decide) (by rfl) (by decide) (by rfl)
    (by rfl) (by rfl) (by rfl) (by decide) (by rfl) (by decide) (by rfl)
  refine ⟨st', h, heq, ?_⟩
  rw [hbal]
  decide

/-! ### Supply conservation (claims C1, C5) -/

theorem balGetChecked_ok (m : Balances) (k : PyVal) (v : Int)
    (h : balGetChecked m k = Except.ok v) : v = balGet m k := by
  unfold balGetChecked at h
  by_cases hk : k.hashable
  · simp [hk] at h; exact h.symm
  · simp [hk] at h

theorem balSetChecked_ok (m : Balances) (k : PyVal) (v : Int) (m' : Balances)
    (h : balSetChecked m k v = Except.ok m') : m' = pymapSet m k v := by
  unfold balSetChecked at h
  by_cases hk : k.hashable
  · simp [hk] at h; exact h.symm
  · simp [hk] at h

theorem asInt_ok (v : PyVal) (a : Int) (h : asInt v = Except.ok a) :
    v = PyVal.int a := by
  cases v <;> simp [asInt] at h
  exact congrArg PyVal.int h

/-- Inversion of the credit step: it succeeds only with an int amount
`a` present, adds exactly `a` to the balance total, and touches neither
chain nor collectibles. -/
theorem apply_token_credit_spec (tx : Tx) (st st' : LedgerState)
    (h : apply_token_credit tx st = Except.ok st') :
    ∃ a, dictLookup tx "amount" = some (PyVal.int a) ∧
      sum_balances st'.balances = sum_balances st.balances + a ∧
      st'.chain = st.chain ∧ st'.collectibles = st.collectibles := by
  unfold apply_token_credit at h
  split at h
  · simp at h
  rename_i toV hto
  split at h
  · simp at h
  rename_i cur hbg
  split at h
  · simp at h
  rename_i amtV hamt
  split at h
  · simp at h
  rename_i a hint
  split at h
  · simp at h
  rename_i bal hbs
  simp only [Except.ok.injEq] at h
  subst h
  have hcur := balGetChecked_ok st.balances toV cur hbg
  have hbal := balSetChecked_ok st.balances toV (cur + a) bal hbs
  have hamt' : dictLookup tx "amount" = some amtV := by
    unfold dictItem at hamt
    cases hl : dictLookup tx "amount" with
    | none => rw [hl] at hamt; simp at hamt
    | some w => rw [hl] at hamt; simp at hamt; rw [hamt]
  refine ⟨a, ?_, ?_, rfl, rfl⟩
  · rw [hamt', asInt_ok amtV a hint]
  · subst hbal hcur
    simp only [sum_balances_set]
    ring

/-- Inversion of the debit step for a non-GENESIS sender: it subtracts
exactly the (int) amount from the balance total and touches neither
chain nor collectibles. -/
theorem apply_token_debit_spec (tx : Tx) (fv : PyVal) (st st' : LedgerState)
    (hfv : fv ≠ PyVal.str "GENESIS")
    (h : apply_token_debit tx fv st = Except.ok st') :
    ∃ a, dictLookup tx "amount" = some (PyVal.int a) ∧
      sum_balances st'.balances = sum_balances st.balances - a ∧
      st'.chain = st.chain ∧ st'.collectibles = st.collectibles := by
  unfold apply_token_debit at h
  rw [if_pos hfv] at h
  split at h
  · simp at h
  rename_i cur hbg
  split at h
  · simp at h
  rename_i amtV hamt
  split at h
  · simp at h
  rename_i a hint
  split at h
  · simp at h
  rename_i bal hbs
  simp only [Except.ok.injEq] at h
  subst h
  have hcur := balGetChecked_ok st.balances fv cur hbg
  have hbal := balSetChecked_ok st.balances fv (cur - a) bal hbs
  have hamt' : dictLookup tx "amount" = some amtV := by
    unfold dictItem at hamt
    cases hl : dictLookup tx "amount" with
    | none => rw [hl] at hamt; simp at hamt
    | some w => rw [hl] at hamt; simp at hamt; rw [hamt]
  refine ⟨a, ?_, ?_, rfl, rfl⟩
  · rw [hamt', asInt_ok amtV a hint]
  · subst hbal hcur
    simp only [sum_balances_set]
    ring

/-- The debit step of a GENESIS-sender token transaction is skipped. -/
theorem apply_token_debit_genesis (tx : Tx) (st : LedgerState) :
    apply_token_debit tx (PyVal.str "GENESIS") st = Except.ok st := by
  simp [apply_token_debit]

/-- A non-GENESIS token transaction is zero-sum on the balance total
and touches neither chain nor collectibles. -/
theorem apply_token_sum (tx : Tx) (st st' : LedgerState)
    (hng : dictGet tx "from" PyVal.pyNone ≠ PyVal.str "GENESIS")
    (h : apply_token tx st = Except.ok st') :
    sum_balances st'.balances = sum_balances st.balances ∧
      st'.chain = st.chain ∧ st'.collectibles = st.collectibles := by
  unfold apply_token at h
  split at h
  · simp at h
  rename_i fv hfrom
  have hfvg : fv ≠ PyVal.str "GENESIS" := by
    intro he
    apply hng
    unfold dictItem at hfrom
    cases hl : dictLookup tx "from" with
    | none => rw [hl] at hfrom; simp at hfrom
    | some w =>
      rw [hl] at hfrom; simp at hfrom
      simp [dictGet, hl, hfrom, he]
  split at h
  · simp at h
  rename_i st₁ hdeb
  obtain ⟨a, hlook, hsum1, hchain1, hcoll1⟩ :=
    apply_token_debit_spec tx fv st st₁ hfvg hdeb
  obtain ⟨a', hlook', hsum2, hchain2, hcoll2⟩ :=
    apply_token_credit_spec tx st₁ st' h
  have haa : a' = a := by
    rw [hlook] at hlook'
    simpa using hlook'.symm
  rw [hsum2, hsum1, haa]
  refine ⟨by ring, by rw [hchain2, hchain1], by rw [hcoll2, hcoll1]⟩

/-- `collectible_create` touches neither balances nor chain. -/
theorem apply_create_frame (tx : Tx) (now : Nat) (st st' : LedgerState)
    (h : apply_create tx now st = Except.ok st') :
    st'.balances = st.balances ∧ st'.chain = st.chain := by
  unfold apply_create at h
  cases hid : dictItem tx "id" with
  | error e => rw [hid] at h; simp at h
  | ok cid =>
    rw [hid] at h
    cases hto : dictItem tx "to" with
    | error e => rw [hto] at h; simp at h
    | ok toV =>
      rw [hto] at h
      by_cases hh : cid.hashable
      · simp only [hh, if_true, Except.ok.injEq] at h
        subst h
        exact ⟨rfl, rfl⟩
      · simp [hh] at h

/-- `collectible_transfer` touches neither balances nor chain. -/
theorem apply_transfer_frame (tx : Tx) (now : Nat) (st st' : LedgerState)
    (h : apply_transfer tx now st = Except.ok st') :
    st'.balances = st.balances ∧ st'.chain = st.chain := by
  unfold apply_transfer at h
  cases hid : dictItem tx "id" with
  | error e => rw [hid] at h; simp at h
  | ok cid =>
    rw [hid] at h
    cases hto : dictItem tx "to" with
    | error e => rw [hto] at h; simp at h
    | ok toV =>
      rw [hto] at h
      by_cases hh : cid.hashable
      · simp only [hh, if_true] at h
        cases hl : pymapLookup st.collectibles cid with
        | none => rw [hl] at h; simp at h
        | some c =>
          rw [hl] at h
          simp only [Except.ok.injEq] at h
          subst h
          exact ⟨rfl, rfl⟩
      · simp [hh] at h

/-- One successful apply step of a no-mint transaction preserves the
balance total and the chain. -/
theorem apply_tx_sum (tx : Tx) (now : Nat) (st st' : LedgerState)
    (hnm : NoMintTx tx) (h : apply_tx tx now st = Except.ok st') :
    sum_balances st'.balances = sum_balances st.balances ∧ st'.chain = st.chain := by
  unfold apply_tx at h
  by_cases h1 : dictGet tx "type" (PyVal.str "token") = PyVal.str "token"
  · rw [if_pos h1] at h
    obtain ⟨hs, hc, _⟩ := apply_token_sum tx st st' (hnm h1) h
    exact ⟨hs, hc⟩
  · rw [if_neg h1] at h
    by_cases h2 : dictGet tx "type" (PyVal.str "token") = PyVal.str "collectible_create"
    · rw [if_pos h2] at h
      obtain ⟨hb, hc⟩ := apply_create_frame tx now st st' h
      exact ⟨by rw [hb], hc⟩
    · rw [if_neg h2] at h
      by_cases h3 : dictGet tx "type" (PyVal.str "token") = PyVal.str "collectible_transfer"
      · rw [if_pos h3] at h
        obtain ⟨hb, hc⟩ := apply_transfer_frame tx now st st' h
        exact ⟨by rw [hb], hc⟩
      · rw [if_neg h3] at h
        simp only [Except.ok.injEq] at h
        subst h
        exact ⟨rfl, rfl⟩

/-- The whole apply loop of a no-mint batch preserves the balance total
and the chain. -/
theorem apply_all_sum (now : Nat) (txs : List Tx) (st st' : LedgerState)
    (hnm : NoMintBatch txs) (h : apply_all now txs st = (st', Option.none)) :
    sum_balances st'.balances = sum_balances st.balances ∧ st'.chain = st.chain := by
  induction txs generalizing st with
  | nil =>
    simp only [apply_all, Prod.mk.injEq] at h
    rw [h.1]
    exact ⟨rfl, rfl⟩
  | cons t rest ih =>
    simp only [apply_all] at h
    split at h
    · rename_i st₁ happ
      have hstep := apply_tx_sum t now st st₁ (hnm t (List.mem_cons_self t rest)) happ
      have hrest := ih st₁ (fun t' ht' => hnm t' (List.mem_cons_of_mem t ht')) h
      exact ⟨by rw [hrest.1, hstep.1], by rw [hrest.2, hstep.2]⟩
    · simp at h

/-- Inversion of a successful `add_block`: the batch verified, the
effects applied without an exception, and the new state is the applied
state with the built block appended. -/
theorem add_block_ok (crypto : Crypto) (digest : BlockContent → String)
    (st st'' : LedgerState) (txs : List Tx) (now : Nat) (h : String)
    (hadd : add_block crypto digest st txs now = (st'', Except.ok h)) :
    validate_all crypto st txs = Option.none ∧
    ∃ st', apply_all now txs st = (st', Option.none) ∧
      st'' = LedgerState.mk (st'.chain ++ [build_block digest st.chain txs now])
        st'.balances st'.collectibles ∧
      h = (build_block digest st.chain txs now).hash := by
  unfold add_block at hadd
  cases hval : validate_all crypto st txs with
  | some e => rw [hval] at hadd; simp at hadd
  | none =>
    rw [hval] at hadd
    cases happ : apply_all now txs st with
    | mk st' eopt =>
      rw [happ] at hadd
      cases eopt with
      | some e => simp at hadd
      | none =>
        simp only [Prod.mk.injEq, Except.ok.injEq] at hadd
        exact ⟨rfl, st', rfl, hadd.1.symm, hadd.2.symm⟩

/-- A successful `add_block` on a no-mint batch preserves the balance
total. -/
theorem add_block_sum (crypto : Crypto) (digest : BlockContent → String)
    (st st'' : LedgerState) (txs : List Tx) (now : Nat) (h : String)
    (hnm : NoMintBatch txs)
    (hadd : add_block crypto digest st txs now = (st'', Except.ok h)) :
    sum_balances st''.balances = sum_balances st.balances := by
  obtain ⟨_, st', happ, hst, _⟩ := add_block_ok crypto digest st st'' txs now h hadd
  obtain ⟨hs, _⟩ := apply_all_sum now txs st st' hnm happ
  rw [hst]
  exact hs

/-- The genesis `add_block` on an empty state always succeeds: the
GENESIS sender bypasses every check and the founder is credited the
whole supply. -/
theorem genesis_add_block (crypto : Crypto) (digest : BlockContent → String)
    (f pub : String) (now : Nat) :
    add_block crypto digest empty_state [genesis_tx f pub] now =
      (LedgerState.mk [build_block digest [] [genesis_tx f pub] now]
        [(PyVal.str f, SUPPLY_TOTAL)] [],
       Except.ok (build_block digest [] [genesis_tx f pub] now).hash) := by
  rfl

/-- The bootstrapped state in explicit form: one genesis block, the
founder holding the whole supply, no collectibles. -/
theorem boot_state_eq (crypto : Crypto) (digest : BlockContent → String)
    (f pub : String) (now : Nat) :
    boot_state crypto digest f pub now =
      LedgerState.mk [build_block digest [] [genesis_tx f pub] now]
        [(PyVal.str f, SUPPLY_TOTAL)] [] := by
  unfold boot_state ensure_genesis
  rw [if_pos (by rfl)]
  rw [genesis_add_block crypto digest f pub now]
  simp [pymapSet]

theorem boot_state_sum (crypto : Crypto) (digest : BlockContent → String)
    (f pub : String) (now : Nat) :
    sum_balances (boot_state crypto digest f pub now).balances = SUPPLY_TOTAL := by
  rw [boot_state_eq]
  simp [sum_balances]

/-- `sum_balances` is invariant along any no-mint reachable trace. -/
theorem reachable_sum (crypto : Crypto) (digest : BlockContent → String)
    (start st : LedgerState)
    (h : ReachableFrom crypto digest NoMintBatch start st) :
    sum_balances st.balances = sum_balances start.balances := by
  induction h with
  | refl => rfl
  | step hre hP hadd ih =>
    rw [← ih]
    exact add_block_sum crypto digest _ _ _ _ _ hP hadd

/-- C1 — supply conservation, amended.  First part: from the
bootstrapped state, every state reachable by successful `add_block`
calls whose batches contain no GENESIS-sender token transaction has
balance total `SUPPLY_TOTAL` (the restriction is forced: the validator
accepts GENESIS-sender token transactions at any time, which inflate the
total — see the counterexample).  Second part: applying a non-GENESIS
token transaction is zero-sum on the balance total.  Third and fourth
parts: applying a `collectible_create` or `collectible_transfer`
changes no balance. -/
theorem C1_supply_conservation :
    (∀ (crypto : Crypto) (digest : BlockContent → String) (founder pub : String)
       (now : Nat) (st : LedgerState),
       ReachableFrom crypto digest NoMintBatch
         (boot_state crypto digest founder pub now) st →
       sum_balances st.balances = SUPPLY_TOTAL)
    ∧ (∀ (tx : Tx) (st st' : LedgerState),
       dictGet tx "from" PyVal.pyNone ≠ PyVal.str "GENESIS" →
       apply_token tx st = Except.ok st' →
       sum_balances st'.balances = sum_balances st.balances)
    ∧ (∀ (tx : Tx) (now : Nat) (st st' : LedgerState),
       apply_create tx now st = Except.ok st' → st'.balances = st.balances)
    ∧ (∀ (tx : Tx) (now : Nat) (st st' : LedgerState),
       apply_transfer tx now st = Except.ok st' → st'.balances = st.balances) := by
  refine ⟨?_, ?_, ?_, ?_⟩
  · intro crypto digest founder pub now st h
    rw [reachable_sum crypto digest _ st h]
    exact boot_state_sum crypto digest founder pub now
  · intro tx st st' hng h
    exact (apply_token_sum tx st st' hng h).1
  · intro tx now st st' h
    exact (apply_create_frame tx now st st' h).1
  · intro tx now st st' h
    exact (apply_transfer_frame tx now st st' h).1

/-- Witness for C1 at a concrete input: the bootstrapped ledger itself,
and the ledger after one valid founder spend, both carry total
100,000,000. -/
theorem C1_supply_conservation_witness :
    sum_balances boot0.balances = SUPPLY_TOTAL ∧
    sum_balances ((add_block crypto0 digest0 boot0 [spend_tx 1000] 1).1).balances =
      SUPPLY_TOTAL := by
  constructor
  · exact C1_supply_conservation.1 crypto0 digest0 "f" "aa" 0 boot0 ReachableFrom.refl
  · refine C1_supply_conservation.1 crypto0 digest0 "f" "aa" 0 _
      (@ReachableFrom.step crypto0 digest0 NoMintBatch
        (boot_state crypto0 digest0 "f" "aa" 0) boot0
        ((add_block crypto0 digest0 boot0 [spend_tx 1000] 1).1)
        [spend_tx 1000] 1 "2" ReachableFrom.refl ?_ (by rfl))
    intro tx htx
    simp only [List.mem_singleton] at htx
    subst htx
    intro _
    decide

/-- Counterexample to C1 as stated: the claim quantifies over every
sequence of successful `add_block` calls, but a GENESIS-sender token
transaction is accepted at any time (line 101 guards nothing for
GENESIS), so one post-bootstrap mint of 5 yields a reachable state with
balance total 100,000,005. -/
theorem C1_counterexample :
    ¬ (∀ (crypto : Crypto) (digest : BlockContent → String) (founder pub : String)
        (now : Nat) (st : LedgerState),
        ReachableFrom crypto digest (fun _ => True)
          (boot_state crypto digest founder pub now) st →
        sum_balances st.balances = SUPPLY_TOTAL) := by
  intro hclaim
  have hre : ReachableFrom crypto0 digest0 (fun _ => True)
      (boot_state crypto0 digest0 "f" "aa" 0)
      ((add_block crypto0 digest0 boot0 [mint_tx 5] 1).1) :=
    @ReachableFrom.step crypto0 digest0 (fun _ => True)
      (boot_state crypto0 digest0 "f" "aa" 0) boot0
      ((add_block crypto0 digest0 boot0 [mint_tx 5] 1).1)
      [mint_tx 5] 1 "2" ReachableFrom.refl trivial (by rfl)
  have hsum := hclaim crypto0 digest0 "f" "aa" 0 _ hre
  have hval : sum_balances ((add_block crypto0 digest0 boot0 [mint_tx 5] 1).1).balances =
      100000005 := by rfl
  rw [hval] at hsum
  exact absurd hsum (by decide)

/-- C5 — the code accepts GENESIS-sender token transactions after
bootstrap: on the bootstrapped ledger (chain length 1), a batch holding
a GENESIS mint of 1 is accepted by `add_block` (a block is appended) and
the balance total grows to 100,000,001 — supply issuance is not limited
to the first run. -/
theorem C5_genesis_accepted_after_bootstrap :
    boot0.chain.length = 1 ∧
    verify_transaction crypto0 boot0 (mint_tx 1) = Except.ok (true, "OK") ∧
    (add_block crypto0 digest0 boot0 [mint_tx 1] 7).2 = Except.ok "2" ∧
    sum_balances ((add_block crypto0 digest0 boot0 [mint_tx 1] 7).1).balances =
      SUPPLY_TOTAL + 1 := by
  exact ⟨rfl, rfl, rfl, rfl⟩

/-! ### Address binding precedes signature checking (claim C6) -/

/-- C6 — a well-formed non-GENESIS token transaction whose pubkey does
not derive to its `from` address is rejected with the address/pubkey
mismatch reason, for EVERY signature verifier `vs`: the check on line
114 fires before the signature is ever examined, so the verdict is
independent of signature validity (second conjunct). -/
theorem C6_address_binding :
    ∀ (derive : String → String)
      (vs vs' : String → String → String → SigOutcome)
      (st : LedgerState) (tx : Tx) (f t pk sg : String) (a : Int),
      dictGet tx "type" (PyVal.str "token") = PyVal.str "token" →
      dictLookup tx "from" = some (PyVal.str f) → f ≠ "GENESIS" →
      dictLookup tx "to" = some (PyVal.str t) →
      dictLookup tx "amount" = some (PyVal.int a) → 0 < a →
      dictLookup tx "pubkey" = some (PyVal.str pk) → is_hex pk = true →
      dictLookup tx "signature" = some (PyVal.str sg) → is_hex sg = true →
      derive pk ≠ f →
      verify_transaction ⟨derive, vs⟩ st tx = Except.ok (false,
        "La dirección \x27from\x27 no corresponde a la clave pública \x27pubkey\x27") ∧
      verify_transaction ⟨derive, vs⟩ st tx = verify_transaction ⟨derive, vs'⟩ st tx := by
  have main : ∀ (derive : String → String)
      (vs : String → String → String → SigOutcome)
      (st : LedgerState) (tx : Tx) (f t pk sg : String) (a : Int),
      dictGet tx "type" (PyVal.str "token") = PyVal.str "token" →
      dictLookup tx "from" = some (PyVal.str f) → f ≠ "GENESIS" →
      dictLookup tx "to" = some (PyVal.str t) →
      dictLookup tx "amount" = some (PyVal.int a) → 0 < a →
      dictLookup tx "pubkey" = some (PyVal.str pk) → is_hex pk = true →
      dictLookup tx "signature" = some (PyVal.str sg) → is_hex sg = true →
      derive pk ≠ f →
      verify_transaction ⟨derive, vs⟩ st tx = Except.ok (false,
        "La dirección \x27from\x27 no corresponde a la clave pública \x27pubkey\x27") := by
    intro derive vs st tx f t pk sg a htype hfrom hf hto hamt hpos hpk hpkhex
      hsg hsghex hderive
    have hfromv : dictGet tx "from" PyVal.pyNone = PyVal.str f := by
      simp [dictGet, hfrom]
    have htov : dictGet tx "to" PyVal.pyNone = PyVal.str t := by
      simp [dictGet, hto]
    have hamtv : dictGet tx "amount" PyVal.pyNone = PyVal.int a := by
      simp [dictGet, hamt]
    have hpkv : dictGet tx "pubkey" PyVal.pyNone = PyVal.str pk := by
      simp [dictGet, hpk]
    have hsgv : dictGet tx "signature" PyVal.pyNone = PyVal.str sg := by
      simp [dictGet, hsg]
    have hfromitem : dictItem tx "from" = Except.ok (PyVal.str f) := by
      simp [dictItem, hfrom]
    have hfg : PyVal.str f ≠ PyVal.str "GENESIS" := by simp [hf]
    simp only [verify_transaction, verify_call, htype, if_pos, hfromitem,
      token_checks, hfromv, htov, hamtv, hpkv, hsgv, hfg, if_true,
      hpkhex, hsghex]
    simp [hf, not_le.mpr hpos, hderive]
  intro derive vs vs' st tx f t pk sg a htype hfrom hf hto hamt hpos hpk hpkhex
    hsg hsghex hderive
  have h1 := main derive vs st tx f t pk sg a htype hfrom hf hto hamt hpos hpk
    hpkhex hsg hsghex hderive
  have h2 := main derive vs' st tx f t pk sg a htype hfrom hf hto hamt hpos hpk
    hpkhex hsg hsghex hderive
  exact ⟨h1, by rw [h1, h2]⟩

/-- A crypto collaborator deriving a mismatching address, with a
verifier rejecting every signature. -/
def crypto_bad : Crypto := ⟨fun _ => "zzz", fun _ _ _ => SigOutcome.badSignature⟩

/-- Witness for C6 at a concrete input: under a derive function mapping
the pubkey to `"zzz"` (≠ `"f"`), the founder spend is rejected with the
mismatch reason, whether the signature verifier accepts everything or
rejects everything. -/
theorem C6_address_binding_witness :
    verify_transaction crypto_bad boot0 (spend_tx 5) = Except.ok (false,
      "La dirección \x27from\x27 no corresponde a la clave pública \x27pubkey\x27") ∧
    verify_transaction crypto_bad boot0 (spend_tx 5) =
      verify_transaction ⟨fun _ => "zzz", fun _ _ _ => SigOutcome.valid⟩ boot0 (spend_tx 5) := by
  exact C6_address_binding (fun _ => "zzz") (fun _ _ _ => SigOutcome.badSignature)
    (fun _ _ _ => SigOutcome.valid) boot0 (spend_tx 5) "f" "g" "aa" "bb" 5
    (by rfl) (by rfl) (by decide) (by rfl) (by rfl) (by decide) (by rfl) (by rfl)
    (by rfl) (by rfl) (by decide)

/-! ### Chain hash-linking (claim C3) -/

/-- The hash the next block must link to: the last block's stored hash,
or `p` at the head of the chain. -/
def chain_tip (p : String) : List Block → String
  | [] => p
  | b :: rest => chain_tip b.hash rest

theorem chain_tip_getLast (p : String) (l : List Block) :
    chain_tip p l = (match l.getLast? with
                     | some b => b.hash
                     | Option.none => p) := by
  induction l generalizing p with
  | nil => rfl
  | cons b rest ih =>
    cases rest with
    | nil => rfl
    | cons c rest' =>
      rw [List.getLast?_cons_cons]
      exact ih b.hash

theorem build_block_spec (digest : BlockContent → String) (chain : List Block)
    (txs : List Tx) (now : Nat) :
    (build_block digest chain txs now).prev_hash = chain_tip "0" chain ∧
    (build_block digest chain txs now).index = chain.length + 1 ∧
    (build_block digest chain txs now).hash =
      digest (build_block digest chain txs now).content := by
  refine ⟨?_, rfl, rfl⟩
  rw [chain_tip_getLast]
  rfl

theorem linked_from_append (digest : BlockContent → String) (p : String)
    (idx : Nat) (l : List Block) (b : Block)
    (hl : linked_from digest p idx l)
    (hprev : b.prev_hash = chain_tip p l)
    (hidx : b.index = idx + l.length)
    (hhash : b.hash = digest b.content) :
    linked_from digest p idx (l ++ [b]) := by
  induction l generalizing p idx with
  | nil =>
    simp only [List.nil_append, linked_from]
    exact ⟨hprev, by simpa using hidx, hhash, trivial⟩
  | cons hd tl ih =>
    obtain ⟨h1, h2, h3, htl⟩ := hl
    refine ⟨h1, h2, h3, ?_⟩
    refine ih hd.hash (idx + 1) htl hprev ?_
    rw [hidx]
    simp only [List.length_cons]
    omega

theorem apply_token_debit_chain (tx : Tx) (fv : PyVal) (st st' : LedgerState)
    (h : apply_token_debit tx fv st = Except.ok st') :
    st'.chain = st.chain := by
  unfold apply_token_debit at h
  by_cases hfv : fv ≠ PyVal.str "GENESIS"
  · obtain ⟨_, _, _, hc, _⟩ := apply_token_debit_spec tx fv st st' hfv (by
      unfold apply_token_debit
      rw [if_pos hfv]
      rw [if_pos hfv] at h
      exact h)
    exact hc
  · rw [if_neg hfv] at h
    simp only [Except.ok.injEq] at h
    rw [h]

theorem apply_tx_chain (tx : Tx) (now : Nat) (st st' : LedgerState)
    (h : apply_tx tx now st = Except.ok st') : st'.chain = st.chain := by
  unfold apply_tx at h
  by_cases h1 : dictGet tx "type" (PyVal.str "token") = PyVal.str "token"
  · rw [if_pos h1] at h
    unfold apply_token at h
    split at h
    · simp at h
    rename_i fv hfrom
    split at h
    · simp at h
    rename_i st₁ hdeb
    obtain ⟨_, _, _, hc, _⟩ := apply_token_credit_spec tx st₁ st' h
    rw [hc]
    exact apply_token_debit_chain tx fv st st₁ hdeb
  · rw [if_neg h1] at h
    by_cases h2 : dictGet tx "type" (PyVal.str "token") = PyVal.str "collectible_create"
    · rw [if_pos h2] at h
      exact (apply_create_frame tx now st st' h).2
    · rw [if_neg h2] at h
      by_cases h3 : dictGet tx "type" (PyVal.str "token") = PyVal.str "collectible_transfer"
      · rw [if_pos h3] at h
        exact (apply_transfer_frame tx now st st' h).2
      · rw [if_neg h3] at h
        simp only [Except.ok.injEq] at h
        rw [h]

theorem apply_all_chain (now : Nat) (txs : List Tx) (st st' : LedgerState)
    (h : apply_all now txs st = (st', Option.none)) : st'.chain = st.chain := by
  induction txs generalizing st with
  | nil =>
    simp only [apply_all, Prod.mk.injEq] at h
    rw [h.1]
  | cons t rest ih =>
    simp only [apply_all] at h
    split at h
    · rename_i st₁ happ
      rw [ih st₁ h]
      exact apply_tx_chain t now st st₁ happ
    · simp at h

/-- The chain component of a successful `add_block`: the old chain with
the built block appended. -/
theorem add_block_chain (crypto : Crypto) (digest : BlockContent → String)
    (st st'' : LedgerState) (txs : List Tx) (now : Nat) (h : String)
    (hadd : add_block crypto digest st txs now = (st'', Except.ok h)) :
    st''.chain = st.chain ++ [build_block digest st.chain txs now] := by
  obtain ⟨_, st', happ, hst, _⟩ := add_block_ok crypto digest st st'' txs now h hadd
  rw [hst]
  simp only
  rw [apply_all_chain now txs st st' happ]

/-- Hash-linking is preserved along every successful trace. -/
theorem reachable_linked (crypto : Crypto) (digest : BlockContent → String)
    (st : LedgerState)
    (h : ReachableFrom crypto digest (fun _ => True) empty_state st) :
    linked_from digest "0" 1 st.chain := by
  induction h with
  | refl => trivial
  | step hre hP hadd ih =>
    rename_i st' st'' txs now hsh
    rw [add_block_chain crypto digest st' st'' txs now hsh hadd]
    obtain ⟨hprev, hidx, hhash⟩ := build_block_spec digest st'.chain txs now
    refine linked_from_append digest "0" 1 st'.chain _ ih hprev ?_ hhash
    omega

/-- C3 — Chain hash-linking: in every state reachable by successful
`add_block` calls from the empty chain, block 1's `prev_hash` is the
sentinel `"0"`, each later block's `prev_hash` equals its predecessor's
stored hash, each block's `index` is its 1-based position, and each
block's stored `hash` equals the digest of its own `index`, `timestamp`,
`transactions` and `prev_hash` fields — the stored `hash` field is
excluded.  `digest` abstracts the source's
`sha256(json.dumps(block, sort_keys=True))` (key-sorted canonical JSON
followed by SHA-256), which the ledger only ever applies to exactly
those four fields; the theorem holds for every such digest function. -/
theorem C3_chain_hash_linking :
    ∀ (crypto : Crypto) (digest : BlockContent → String) (st : LedgerState),
      ReachableFrom crypto digest (fun _ => True) empty_state st →
      linked_from digest "0" 1 st.chain :=
  fun crypto digest st h => reachable_linked crypto digest st h

/-- Witness for C3 at a concrete input: after a genesis block and a
spend block added from the empty chain, the two-block chain is
hash-linked. -/
theorem C3_chain_hash_linking_witness :
    linked_from digest0 "0" 1
      ((add_block crypto0 digest0
        ((add_block crypto0 digest0 empty_state [genesis_tx "f" "aa"] 0).1)
        [spend_tx 1000] 1).1).chain := by
  refine C3_chain_hash_linking crypto0 digest0 _
    (@ReachableFrom.step crypto0 digest0 (fun _ => True) empty_state
      ((add_block crypto0 digest0 empty_state [genesis_tx "f" "aa"] 0).1)
      ((add_block crypto0 digest0
        ((add_block crypto0 digest0 empty_state [genesis_tx "f" "aa"] 0).1)
        [spend_tx 1000] 1).1)
      [spend_tx 1000] 1 "2"
      (@ReachableFrom.step crypto0 digest0 (fun _ => True) empty_state
        empty_state
        ((add_block crypto0 digest0 empty_state [genesis_tx "f" "aa"] 0).1)
        [genesis_tx "f" "aa"] 0 "1" ReachableFrom.refl trivial (by rfl))
      trivial (by rfl))

/-- C9 — Validator totality fails: a token-typed transaction lacking the
`from` key makes `verify_transaction` raise `KeyError('from')` at line
101 (`tx['from']`) instead of returning a verdict; the defensive
`isinstance(tx.get('from'), str)` check on line 103 is unreachable for
this input. -/
theorem C9_missing_from_raises :
    ∀ (crypto : Crypto) (st : LedgerState),
      verify_transaction crypto st [("type", PyVal.str "token")] =
        Except.error (PyErr.keyError "from") := by
  intro crypto st
  rfl

end DCUP
